import Mathlib

/-!
Verification of the resumable deployment orchestration engine of
`deploy_bcm_air.py`: the `ProgressTracker` checkpoint store and step
sequencer, the SSH bootstrap fallback strategy of
`configure_node_passwords`, the versioned-parameter resolver
`_resolve_versioned_value`, and the post-install action executor
`run_post_install_features`.

The embedding models Python values that the code manipulates (strings,
ints, bools, None, dicts keyed by string-or-int) as an inductive type,
and models the outcomes of external subprocess invocations (sshpass,
expect, scp/ssh helpers, file-existence checks) as an explicit
environment handed to the embedded functions.  Printing, file I/O for
the checkpoint file itself (which is write-through: the in-memory dict
and the persisted JSON always agree), and temp-file management are not
modelled; they do not influence any return value modelled here.
-/

namespace BcmAir

/-- Python-style values as they appear in `features.yaml` parameters and
in action dicts: a string, an int, a bool, `None` (also standing for an
absent key, as `dict.get` returns `None` for both), or a mapping whose
keys may be strings or ints (YAML mappings such as `{10: "a.xml"}`). -/
inductive PyKey where
  | ks (s : String)
  | ki (n : Int)
deriving DecidableEq

inductive PyV where
  | vnone
  | vbool (b : Bool)
  | vint (n : Int)
  | vstr (s : String)
  | vdict (es : List (PyKey × PyV))

/-- Python truthiness for the modelled values: `None`, `False`, `0`, the
empty string and the empty dict are falsy. -/
def pvTruthy : PyV → Bool
  | .vnone => false
  | .vbool b => b
  | .vint n => decide (n ≠ 0)
  | .vstr s => !s.isEmpty
  | .vdict es => !es.isEmpty

/-- Python `str()` for the modelled values.  Dicts are rendered with a
placeholder: the executor only ever feeds the result to the external
shell helpers as an opaque path, and no claim depends on the exact
rendering Python would produce for a dict. -/
def pyStr : PyV → String
  | .vnone => "None"
  | .vbool b => if b then "True" else "False"
  | .vint n => toString n
  | .vstr s => s
  | .vdict _ => "<dict>"

/-- First-match association lookup, modelling Python dict indexing (dict
keys are unique, so first-match is exact). -/
def alookup : List (PyKey × PyV) → PyKey → Option PyV
  | [], _ => none
  | (k, v) :: rest, key => if k = key then some v else alookup rest key

/-- Drop leading whitespace characters. -/
def dropLeadingWs : List Char → List Char
  | [] => []
  | c :: cs => if c.isWhitespace then dropLeadingWs cs else c :: cs

/-- Python `s.strip()`: drop whitespace from both ends (ASCII
whitespace; Python additionally strips other Unicode whitespace, which
no modelled string contains). -/
def pyStrip (s : String) : String :=
  ⟨(dropLeadingWs ((dropLeadingWs s.data).reverse)).reverse⟩

/-- Characters before the first `.`, i.e. Python `s.split(".")[0]`. -/
def takeUntilDot : List Char → List Char
  | [] => []
  | c :: cs => if c = '.' then [] else c :: takeUntilDot cs

/-- Digits of a decimal literal, or `none` if empty or a non-digit occurs. -/
def decDigits : List Char → Option Nat
  | [] => none
  | cs => go cs 0
where
  go : List Char → Nat → Option Nat
    | [], acc => some acc
    | c :: rest, acc =>
      if c.isDigit then go rest (acc * 10 + (c.toNat - '0'.toNat)) else none

/-- Python `int(s)` on a string: strip surrounding whitespace, allow one
sign, then decimal digits; anything else raises `ValueError`, modelled
as `none`.  (Python additionally accepts digit-group underscores and
non-ASCII digits; those corners are not modelled and are never relied
on: the same function is used in the embedding and in the theorem
statements.) -/
def pyIntOfString (s : String) : Option Int :=
  match (pyStrip s).data with
  | [] => none
  | '+' :: rest => (decDigits rest).map (fun n => (n : Int))
  | '-' :: rest => (decDigits rest).map (fun n => -(n : Int))
  | cs => (decDigits cs).map (fun n => (n : Int))

/-- Embedding of `AirBCMDeployer._resolve_versioned_value` (source lines
2697-2713): a dict is probed with the major-version string key first,
then with `int(bcm_major)` (a failed parse is swallowed), falling back
to the unresolved value; a non-dict value is returned unchanged. -/
def resolve_versioned_value (value : PyV) (bcm_major : String) : PyV :=
  match value with
  | .vdict es =>
    match alookup es (.ks bcm_major) with
    | some r => r
    | none =>
      match pyIntOfString bcm_major with
      | some k =>
        match alookup es (.ki k) with
        | some r => r
        | none => value
      | none => value
  | v => v

/-- Does `needle` occur at the start of `hay`?  (Contiguous-match helper
for the substring test below.) -/
def chunkLeads : List Char → List Char → Bool
  | [], _ => true
  | _ :: _, [] => false
  | a :: as, b :: bs => if a = b then chunkLeads as bs else false

/-- Does `needle` occur contiguously anywhere in `hay`?  Mirrors Python
`needle in hay` on strings (character lists here). -/
def chunkOccurs (needle : List Char) : List Char → Bool
  | [] => chunkLeads needle []
  | c :: rest => chunkLeads needle (c :: rest) || chunkOccurs needle rest

/-- Python `needle in hay` for strings. -/
def pyContains (hay needle : String) : Bool :=
  chunkOccurs needle.data hay.data

/-- Python `s.lower()` (ASCII case folding; the prompt signatures the
code scans for are all ASCII). -/
def pyLower (s : String) : String :=
  ⟨s.data.map Char.toLower⟩

/-- Does `s` start with `p`?  (Used only in theorem statements about
method labels, e.g. the `ssh-expect-` family.) -/
def strStarts (p s : String) : Bool :=
  chunkLeads p.data s.data

/-- A post-install action dict, as produced by `features.yaml` (explicit
`actions:` entries) or by the per-feature build in
`run_post_install_features`.  Only the keys the executor reads are
modelled; a key the dict does not carry is `vnone`, matching
`act.get(key)`. -/
structure Action where
  type : PyV
  name : PyV
  script : PyV
  path : PyV
  config : PyV
  wlm_type : PyV

/-- Embedding of `(act.get("type") or "").strip()` (source line 2857).
A falsy `type` gives the empty string; a truthy string is stripped.  (A
truthy non-string would make Python raise at `.strip()`; that crash is
outside the modelled behaviour and no claim involves one.) -/
def pyActType (a : Action) : String :=
  match a.type with
  | .vstr s => pyStrip s
  | _ => ""

/-- Embedding of `act.get("wlm_type") or "slurm"` (source line 2901). -/
def pyWlmType (a : Action) : String :=
  if pvTruthy a.wlm_type then pyStr a.wlm_type else "slurm"

/-- Values stored in the progress checkpoint dict: step names and
timestamps (strings), the post-install action cursor (ints), and the
in-progress action payload itself (`post_install_action=act`). -/
inductive TrackVal where
  | pnone
  | pbool (b : Bool)
  | pint (n : Int)
  | pstr (s : String)
  | pact (a : Action)

/-- Python truthiness for checkpoint values.  A stored action payload
models a non-empty dict, hence truthy. -/
def tvTruthy : TrackVal → Bool
  | .pnone => false
  | .pbool b => b
  | .pint n => decide (n ≠ 0)
  | .pstr s => !s.isEmpty
  | .pact _ => true

def tvTruthyO : Option TrackVal → Bool
  | none => false
  | some v => tvTruthy v

/-- Point update of a dict modelled as a lookup function
(`self.data[key] = value`). -/
def dUpd (d : String → Option TrackVal) (k : String) (v : TrackVal) :
    String → Option TrackVal :=
  fun k2 => if k2 = k then some v else d k2

/-- Sequential assignment of a list of keyword arguments
(`for key, value in kwargs.items(): self.data[key] = value`).  Python
keyword arguments have pairwise distinct keys; theorems that need this
assume `Nodup` explicitly. -/
def dSetMany (d : String → Option TrackVal) :
    List (String × TrackVal) → (String → Option TrackVal)
  | [] => d
  | (k, v) :: rest => dSetMany (dUpd d k v) rest

/-- Embedding of `ProgressTracker` (source lines 51-133).  `data` models
the single JSON dict `self.data`; `last_step` and `last_updated` live
inside it, exactly as in the source.  Persistence is write-through
(`_save` after every mutation), so the in-memory dict is the persisted
state and is modelled as one.  Timestamps (`datetime.now().isoformat()`)
are passed in as the `now` argument. -/
structure ProgressTracker where
  data : String → Option TrackVal

namespace ProgressTracker

/-- The fixed, totally ordered step sequence (source lines 54-69). -/
def STEPS : List String :=
  ["init", "bcm_version_selected", "password_configured",
   "simulation_name_set", "simulation_created", "cloudinit_configured",
   "simulation_started", "simulation_loaded", "ssh_enabled",
   "node_ready", "ssh_configured", "bcm_installed",
   "features_configured", "completed"]

/-- Index accumulator: the position of `s` in `l` offset by `acc`, or
`-1` when absent (Python `list.index` wrapped in `try/except` returning
`-1`, source lines 96-101). -/
def idxFrom (s : String) : List String → Int → Int
  | [], _ => -1
  | x :: xs, acc => if x = s then acc else idxFrom s xs (acc + 1)

/-- Embedding of `ProgressTracker.get_step_index` on a step-name string:
position in `STEPS`, or `-1` for an unknown name. -/
def get_step_index (s : String) : Int :=
  idxFrom s STEPS 0

/-- `get_step_index` applied to a stored checkpoint value: a non-string
value is never equal to any entry of `STEPS`, so `list.index` raises and
the method returns `-1`. -/
def get_step_index_val : TrackVal → Int
  | .pstr s => get_step_index s
  | _ => -1

def get_step_index_valO : Option TrackVal → Int
  | none => -1
  | some v => get_step_index_val v

/-- Embedding of `ProgressTracker.get_last_step`:
`self.data.get("last_step", None)`; `none` covers both an absent key and
a stored `None`. -/
def get_last_step (t : ProgressTracker) : Option TrackVal :=
  t.data "last_step"

/-- Embedding of `ProgressTracker.is_step_completed` (source lines
103-108): `False` when `last_step` is falsy, otherwise
`get_step_index(step) <= get_step_index(last_step)`. -/
def is_step_completed (t : ProgressTracker) (step : String) : Bool :=
  if tvTruthyO (t.get_last_step) then
    decide (get_step_index step ≤ get_step_index_valO (t.get_last_step))
  else false

/-- Embedding of `ProgressTracker.complete_step` (source lines 110-116):
set `last_step`, set `last_updated`, then merge the keyword arguments
(in that order, so a keyword argument could overwrite either). -/
def complete_step (t : ProgressTracker) (now step : String)
    (kv : List (String × TrackVal)) : ProgressTracker :=
  ⟨dSetMany (dUpd (dUpd t.data "last_step" (.pstr step))
      "last_updated" (.pstr now)) kv⟩

/-- Embedding of `ProgressTracker.get`: `self.data.get(key, default)`
with the default fixed to `None` (the only default the claims touch). -/
def get (t : ProgressTracker) (k : String) : Option TrackVal :=
  t.data k

/-- Embedding of `ProgressTracker.set` (source lines 122-127): merge the
keyword arguments first, then set `last_updated`. -/
def set (t : ProgressTracker) (now : String)
    (kv : List (String × TrackVal)) : ProgressTracker :=
  ⟨dUpd (dSetMany t.data kv) "last_updated" (.pstr now)⟩

end ProgressTracker

/-- Outcome of one external subprocess invocation as the caller observes
it: a completed process with return code, stdout and stderr, or one of
the exception classes the source catches (`subprocess.TimeoutExpired`,
`FileNotFoundError`, any other `Exception`; source lines 2183-2200). -/
inductive RunOutcome where
  | completed (rc : Int) (stdout stderr : String)
  | timedOut
  | toolNotFound
  | otherError

/-- Environment for one `configure_node_passwords` bootstrap attempt:
tool availability (`which sshpass` / `_command_exists("expect")`) and
the outcome of each tool invocation.  The readiness-probe loop (source
lines 1997-2024) only prints and is best-effort, so it is not modelled;
the early `ssh-missing-ssh-info` return for absent SSH info (lines
1894-1900) is prior to any attempt and also not modelled. -/
structure BootstrapEnv where
  sshpassAvailable : Bool
  sshpassRun : RunOutcome
  expectAvailable : Bool
  expectRun : RunOutcome

/-- The structured bootstrap result dict (source lines 1981-1985). -/
structure BootstrapDetails where
  bootstrap_tool : Option String
  password_change_prompt : Option Bool
  bootstrap_method : String

/-- The completion sentinel the setup script prints last (source line
1966) and both tool paths scan for. -/
def setup_complete_sentinel : String := "SETUP_COMPLETE"

/-- The forced-password-change prompt signatures scanned for in the
combined sshpass output (source line 2068). -/
def forced_pw_change_indicators : List String :=
  ["current password", "new password", "password expired", "must change",
   "you are required to change"]

/-- Embedding of
`any(s in combined.lower() for s in [...])` (source line 2068). -/
def pwPromptDetected (combined : String) : Bool :=
  forced_pw_change_indicators.any (fun s => pyContains (pyLower combined) s)

/-- The expect fallback block of `configure_node_passwords` (source
lines 2078-2181 plus the exception handlers 2183-2200): reached when
sshpass is unavailable or signalled a forced password change.
`bootstrap_tool` is set to `"expect"` before the availability check, so
even `ssh-expect-missing` carries it. -/
def expect_phase (env : BootstrapEnv) (d : BootstrapDetails) :
    Bool × BootstrapDetails :=
  let d := { d with bootstrap_tool := some "expect" }
  if env.expectAvailable then
    match env.expectRun with
    | .timedOut => (false, { d with bootstrap_method := "ssh-timeout" })
    | .toolNotFound => (false, { d with bootstrap_method := "ssh-tool-missing" })
    | .otherError => (false, { d with bootstrap_method := "ssh-error" })
    | .completed rc out _err =>
      if rc == 0 || pyContains out setup_complete_sentinel then
        let saw := pyContains out "Detected forced password-change prompt"
        (true, { d with password_change_prompt := some saw,
                        bootstrap_method :=
                          if saw then "ssh-expect-pwchange"
                          else "ssh-expect-no-pwchange" })
      else
        (false, { d with bootstrap_method := "ssh-expect-failed" })
  else
    (false, { d with bootstrap_method := "ssh-expect-missing" })

/-- Embedding of the bootstrap strategy of
`AirBCMDeployer.configure_node_passwords` (source lines 2026-2200): try
sshpass first when available; on missing sentinel scan combined
stdout/stderr for forced-password-change prompts and either fall through
to expect or fail outright with `ssh-sshpass-failed`; the sshpass branch
checks the sentinel on stdout only and ignores the return code. -/
def configure_node_passwords (env : BootstrapEnv) : Bool × BootstrapDetails :=
  let d0 : BootstrapDetails := ⟨none, none, "ssh-unknown"⟩
  if env.sshpassAvailable then
    let d1 := { d0 with bootstrap_tool := some "sshpass" }
    match env.sshpassRun with
    | .timedOut => (false, { d1 with bootstrap_method := "ssh-timeout" })
    | .toolNotFound => (false, { d1 with bootstrap_method := "ssh-tool-missing" })
    | .otherError => (false, { d1 with bootstrap_method := "ssh-error" })
    | .completed _rc out err =>
      if pyContains out setup_complete_sentinel then
        (true, { d1 with password_change_prompt := some false,
                         bootstrap_method := "ssh-sshpass-no-pwchange" })
      else
        let combined := out ++ "\n" ++ err
        if pwPromptDetected combined then
          expect_phase env { d1 with password_change_prompt := some true }
        else
          (false, { d1 with bootstrap_method := "ssh-sshpass-failed" })
  else
    expect_phase env d0

/-- Path join `topology_dir / str(value)` as the executor builds remote
helper arguments (absolute-path replacement of `pathlib` is not
modelled; the result is only handed to the environment as an opaque
key). -/
def pathJoin (dir s : String) : String :=
  dir ++ "/" ++ s

/-- Environment for the post-install action executor: outcomes of the
external helpers `_run_cmsh_script`, `_upload_ztp_script`,
`_managed_reboot` (true means SSH came back before the timeout) and
`_run_wlm_setup`, plus `Path.exists` checks.  Outcomes are keyed by the
loop index as well as by the argument, modelling per-invocation
nondeterminism of the external processes.  `now` feeds the
`last_updated` timestamps of the checkpoint writes. -/
structure ExecEnv where
  now : String
  fileExists : String → Bool
  cmshOk : Nat → String → Bool
  uploadOk : Nat → String → Bool
  rebootOk : Nat → Bool
  wlmOk : Nat → String → String → Bool

/-- Result of dispatching one action in the executor loop body: either
the loop breaks (carrying the `success` flag as of the break) or control
falls through to the index-advance write with an updated flag. -/
inductive StepRes where
  | brk (succ : Bool)
  | next (succ : Bool)

/-- The dispatch block of the executor loop (source lines 2864-2906),
for the action at loop index `i` with accumulated success flag `succ`:

* `cmsh`: a falsy resolved script, a missing local file, or
  `success = _run_cmsh_script(..) and success` becoming false all break
  the loop (the latter also breaks when the helper succeeded but the
  incoming flag was already false);
* `upload_ztp`: never breaks; a missing path or file only logs, a
  failed upload ands `False` into the flag;
* `reboot`: `success = ok and success`, breaking only when the reboot
  itself failed;
* `wlm_setup`: like `cmsh`, with the `config` parameter;
* any other type: skipped with a warning, flag untouched. -/
def action_step (env : ExecEnv) (dir bcm_major : String) (i : Nat)
    (act : Action) (succ : Bool) : StepRes :=
  let ty := pyActType act
  if ty = "cmsh" then
    let script_val := resolve_versioned_value act.script bcm_major
    if pvTruthy script_val then
      let local_path := pathJoin dir (pyStr script_val)
      if env.fileExists local_path then
        let s2 := env.cmshOk i local_path && succ
        if s2 then .next s2 else .brk s2
      else .brk false
    else .brk false
  else if ty = "upload_ztp" then
    let path_val := resolve_versioned_value act.path bcm_major
    if pvTruthy path_val then
      let ztp_path := pathJoin dir (pyStr path_val)
      if env.fileExists ztp_path then .next (env.uploadOk i ztp_path && succ)
      else .next succ
    else .next succ
  else if ty = "reboot" then
    let ok := env.rebootOk i
    if ok then .next (ok && succ) else .brk (ok && succ)
  else if ty = "wlm_setup" then
    let cfg := resolve_versioned_value act.config bcm_major
    if pvTruthy cfg then
      let local_path := pathJoin dir (pyStr cfg)
      let s2 := env.wlmOk i local_path (pyWlmType act) && succ
      if s2 then .next s2 else .brk s2
    else .brk false
  else .next succ

/-- Final state of an executor run: the returned success flag, the
checkpoint tracker (absent when the deployer has none, mirroring the
`if progress:` guards), the loop indices that were entered, and whether
the loop ended in a `break`. -/
structure ExecResult where
  success : Bool
  progress : Option ProgressTracker
  visited : List Nat
  broke : Bool

/-- Checkpoint write under the `if progress:` guard. -/
def progSet (p : Option ProgressTracker) (now : String)
    (kv : List (String × TrackVal)) : Option ProgressTracker :=
  p.map (fun t => t.set now kv)

/-- The executor loop of `run_post_install_features` (source lines
2855-2909) over the remaining actions, with `i` the absolute index of
the head action: persist the in-progress index and action payload
before dispatching, and persist `i + 1` only after a non-breaking
dispatch. -/
def run_actions_from (env : ExecEnv) (dir bcm_major : String) :
    List Action → Nat → Bool → Option ProgressTracker → ExecResult
  | [], _, succ, prog => ⟨succ, prog, [], false⟩
  | act :: rest, i, succ, prog =>
    let prog1 := progSet prog env.now
      [("post_install_action_index", .pint i),
       ("post_install_action", .pact act)]
    match action_step env dir bcm_major i act succ with
    | .brk s2 => ⟨s2, prog1, [i], true⟩
    | .next s2 =>
      let prog2 := progSet prog1 env.now
        [("post_install_action_index", .pint (i + 1))]
      let r := run_actions_from env dir bcm_major rest (i + 1) s2 prog2
      ⟨r.success, r.progress, i :: r.visited, r.broke⟩

/-- A value of the `features.yaml` top-level mapping: a YAML list (the
explicit `actions:` array), a mapping (a feature configuration), or any
other YAML value. -/
structure FeatureCfg where
  enabled : Bool
  config_file : PyV
  ztp_script : PyV
  reboot_after : Bool

inductive FeatVal where
  | flist (l : List Action)
  | fdict (c : FeatureCfg)
  | fother

/-- The parsed `features.yaml` top-level mapping; keys are unique. -/
structure FeaturesCfg where
  entries : List (String × FeatVal)

def featGet : List (String × FeatVal) → String → Option FeatVal
  | [], _ => none
  | (k, v) :: rest, key => if k = key then some v else featGet rest key

/-- The enabled-feature scan (source lines 2813-2817): skip the
`actions` key, keep mapping values whose `enabled` is truthy, in
declaration order. -/
def enabled_features (f : FeaturesCfg) : List (String × FeatureCfg) :=
  f.entries.filterMap (fun e =>
    if e.1 = "actions" then none
    else match e.2 with
      | .fdict c => if c.enabled then some (e.1, c) else none
      | _ => none)

/-- Python `list.insert(len(list) - 1, x)` (source line 2838): before
the last element for a non-empty list, and `[x]` for an empty one
(index `-1` clamps). -/
def insertBeforeLast (l : List Action) (x : Action) : List Action :=
  l.take (l.length - 1) ++ x :: l.drop (l.length - 1)

/-- The per-feature action build (source lines 2831-2840), used when no
explicit `actions:` list is given. -/
def build_actions (feats : List (String × FeatureCfg))
    (bcm_major : String) : List Action :=
  feats.foldl (fun acc e =>
    let config_file := resolve_versioned_value e.2.config_file bcm_major
    let acc :=
      if pvTruthy config_file then
        acc ++ [⟨.vstr "cmsh", .vstr e.1, .vstr (pyStr config_file),
                 .vnone, .vnone, .vnone⟩]
      else acc
    let acc :=
      if e.1 = "bcm_switches" then
        let ztp := resolve_versioned_value e.2.ztp_script bcm_major
        if pvTruthy ztp then
          insertBeforeLast acc
            ⟨.vstr "upload_ztp", .vstr e.1, .vnone, .vstr (pyStr ztp),
             .vnone, .vnone⟩
        else acc
      else acc
    if e.2.reboot_after then
      acc ++ [⟨.vstr "reboot", .vstr (e.1 ++ "-reboot"), .vnone, .vnone,
               .vnone, .vnone⟩]
    else acc) []

/-- Embedding of
`(bcm_version.split(".")[0] if bcm_version else "").strip() or "10"`
(source line 2808). -/
def majorOf (bcm_version : String) : String :=
  let m := pyStrip (if bcm_version = "" then ""
                    else ⟨takeUntilDot bcm_version.data⟩)
  if m = "" then "10" else m

/-- Embedding of `int(progress.get("post_install_action_index", 0) or 0)`
(source line 2850).  A falsy stored value gives `0`; stored ints pass
through.  (A stored non-numeric truthy string or dict would make Python
raise; the checkpoint only ever stores ints here and no claim involves
such a state.) -/
def pyIntCoerce : Option TrackVal → Int
  | some (.pint n) => n
  | some (.pbool b) => if b then 1 else 0
  | some (.pstr s) => if s.isEmpty then 0 else (pyIntOfString s).getD 0
  | some (.pact _) => 0
  | some .pnone => 0
  | none => 0

/-- Embedding of `AirBCMDeployer.run_post_install_features` (source
lines 2786-2916), minus the YAML file loading (the parsed mapping is the
input).  Output: the returned success flag, the checkpoint tracker, the
resolved action list (`none` when an early return fired before any list
was resolved), and the loop indices entered.  A negative checkpointed
start index is clamped to `0` (the Python `range` would instead wrap into
end-relative indexing; no claim involves a negative cursor). -/
def run_post_install_features (env : ExecEnv) (f : FeaturesCfg)
    (dir bcm_version : String) (prog : Option ProgressTracker) :
    Bool × Option ProgressTracker × Option (List Action) × List Nat :=
  if f.entries.isEmpty then (true, prog, none, [])
  else
    let bcm_major := majorOf bcm_version
    let enabled := enabled_features f
    if enabled.isEmpty then (true, prog, none, [])
    else
      let actions :=
        match featGet f.entries "actions" with
        | some (.flist l) => l
        | _ => build_actions enabled bcm_major
      if actions.isEmpty then (true, prog, some actions, [])
      else
        let idx : Nat :=
          (pyIntCoerce (prog.bind
            (fun t => t.get "post_install_action_index"))).toNat
        let prog := progSet prog env.now
          [("post_install_action_total", .pint actions.length)]
        let r := run_actions_from env dir bcm_major
          (actions.drop idx) idx true prog
        (r.success, r.progress, some actions, r.visited)

/-! Concrete fixtures used by witnesses and counterexamples. -/

/-- An empty checkpoint (fresh run, no progress file). -/
def T0 : ProgressTracker := ⟨fun _ => none⟩

/-- A checkpoint whose last completed step is `init`. -/
def T1 : ProgressTracker := ⟨dUpd (fun _ => none) "last_step" (.pstr "init")⟩

/-- A checkpoint whose last completed step is `password_configured`. -/
def T2 : ProgressTracker :=
  ⟨dUpd (fun _ => none) "last_step" (.pstr "password_configured")⟩

/-- A `cmsh` (script-exec) action dict. -/
def cmshAction (name script : String) : Action :=
  ⟨.vstr "cmsh", .vstr name, .vstr script, .vnone, .vnone, .vnone⟩

/-- An `upload_ztp` (file-upload) action dict. -/
def uploadAction (name path : String) : Action :=
  ⟨.vstr "upload_ztp", .vstr name, .vnone, .vstr path, .vnone, .vnone⟩

/-- A `reboot` action dict. -/
def rebootAction (name : String) : Action :=
  ⟨.vstr "reboot", .vstr name, .vnone, .vnone, .vnone, .vnone⟩

/-- An action dict with an unrecognized type string. -/
def unknownAction (ty : String) : Action :=
  ⟨.vstr ty, .vnone, .vnone, .vnone, .vnone, .vnone⟩

/-- Executor environment in which every external helper succeeds and
every file exists. -/
def envAllOk : ExecEnv :=
  ⟨"ts", fun _ => true, fun _ _ => true, fun _ _ => true, fun _ => true,
   fun _ _ _ => true⟩

/-- Executor environment in which ZTP uploads fail but everything else
succeeds. -/
def envUploadFails : ExecEnv :=
  ⟨"ts", fun _ => true, fun _ _ => true, fun _ _ => false, fun _ => true,
   fun _ _ _ => true⟩

/-- Executor environment in which the managed reboot never sees SSH come
back (reconnect timeout) but everything else succeeds. -/
def envRebootFails : ExecEnv :=
  ⟨"ts", fun _ => true, fun _ _ => true, fun _ _ => true, fun _ => false,
   fun _ _ _ => true⟩

/-- Bootstrap environment for the C3 counterexample: sshpass runs and
reports a forced-password-change prompt on stderr, and the expect
fallback then times out. -/
def bootEnvTimeout : BootstrapEnv :=
  ⟨true, .completed 1 "" "New password: ", true, .timedOut⟩

/-- Bootstrap environment for the C4 witness: sshpass runs and fails
with no prompt signature; expect is installed and would succeed, but
must not be consulted. -/
def bootEnvNoPrompt : BootstrapEnv :=
  ⟨true, .completed 1 "oops" "connection lost", true,
   .completed 0 "SETUP_COMPLETE" ""⟩

/-- Features mapping that carries only an explicit `actions:` list and
no feature entries. -/
def F7 : FeaturesCfg := ⟨[("actions", .flist [rebootAction "r1"])]⟩

/-- Features mapping with an explicit `actions:` list and one enabled
feature entry. -/
def F7e : FeaturesCfg :=
  ⟨[("actions", .flist [rebootAction "r1"]),
    ("x", .fdict ⟨true, .vnone, .vnone, false⟩)]⟩

/-- Sequential composition of two executor-run results (the run over a
list split as `xs ++ ys`, when the `xs` part did not break). -/
def mergeRes (r1 r2 : ExecResult) : ExecResult :=
  ⟨r2.success, r2.progress, r1.visited ++ r2.visited, r2.broke⟩

/-- A fatal action failure in the sense of claim C5: a `cmsh`
(script-exec) action whose resolved script is truthy but whose local
file is missing or whose remote execution fails, or a `reboot` action
whose SSH-reachability wait times out. -/
def FatalActionAt (env : ExecEnv) (dir bcm_major : String) (i : Nat)
    (a : Action) : Prop :=
  (pyActType a = "cmsh" ∧
    pvTruthy (resolve_versioned_value a.script bcm_major) = true ∧
    (env.fileExists
        (pathJoin dir (pyStr (resolve_versioned_value a.script bcm_major))) =
      false ∨
     env.cmshOk i
        (pathJoin dir (pyStr (resolve_versioned_value a.script bcm_major))) =
      false)) ∨
  (pyActType a = "reboot" ∧ env.rebootOk i = false)

/-- The checkpoint state after the executor iterates past an action at
index `i` without executing it: first the in-progress write
(`post_install_action_index=i` with the payload), then the advance to
`i + 1`. -/
def skipTracker (env : ExecEnv) (act : Action) (i : Nat)
    (t : ProgressTracker) : ProgressTracker :=
  ProgressTracker.set
    (ProgressTracker.set t env.now
      [("post_install_action_index", .pint i),
       ("post_install_action", .pact act)])
    env.now [("post_install_action_index", .pint (i + 1))]

end BcmAir

namespace BcmAir

/-! Helper lemmas. -/

theorem strData_append (s t : String) : (s ++ t).data = s.data ++ t.data :=
  rfl

theorem chunkLeads_append (n h r : List Char) :
    chunkLeads n h = true → chunkLeads n (h ++ r) = true := by
  induction n generalizing h with
  | nil => intro _; rfl
  | cons a as ih =>
    intro hl
    cases h with
    | nil => simp [chunkLeads] at hl
    | cons b bs =>
      simp only [chunkLeads, List.cons_append] at hl ⊢
      by_cases hab : a = b
      · rw [if_pos hab] at hl ⊢
        exact ih bs hl
      · rw [if_neg hab] at hl
        exact absurd hl (by simp)

theorem chunkOccurs_nil_needle (h : List Char) : chunkOccurs [] h = true := by
  cases h <;> simp [chunkOccurs, chunkLeads]

theorem chunkOccurs_append (n h r : List Char) :
    chunkOccurs n h = true → chunkOccurs n (h ++ r) = true := by
  induction h with
  | nil =>
    intro ho
    simp only [chunkOccurs] at ho
    cases n with
    | nil => simp [chunkOccurs_nil_needle]
    | cons a as => simp [chunkLeads] at ho
  | cons b bs ih =>
    intro ho
    simp only [chunkOccurs, Bool.or_eq_true, List.cons_append] at ho ⊢
    rcases ho with ho | ho
    · exact Or.inl (by simpa using chunkLeads_append n (b :: bs) r ho)
    · exact Or.inr (ih ho)

theorem pyContains_append (h x n : String) :
    pyContains h n = true → pyContains (h ++ x) n = true := by
  intro hc
  simpa [pyContains, strData_append] using
    chunkOccurs_append n.data h.data x.data hc

theorem dSetMany_notMem (d : String → Option TrackVal)
    (kv : List (String × TrackVal)) (k : String)
    (h : k ∉ kv.map Prod.fst) : dSetMany d kv k = d k := by
  induction kv generalizing d with
  | nil => rfl
  | cons p rest ih =>
    simp only [List.map_cons, List.mem_cons] at h
    push_neg at h
    simp only [dSetMany]
    rw [ih _ h.2]
    simp [dUpd, h.1]

theorem dSetMany_mem (d : String → Option TrackVal)
    (kv : List (String × TrackVal)) (k : String) (v : TrackVal)
    (hnd : (kv.map Prod.fst).Nodup) (hm : (k, v) ∈ kv) :
    dSetMany d kv k = some v := by
  induction kv generalizing d with
  | nil => simp at hm
  | cons p rest ih =>
    simp only [List.map_cons, List.nodup_cons] at hnd
    simp only [List.mem_cons] at hm
    rcases hm with hm | hm
    · subst hm
      simp only [dSetMany]
      rw [dSetMany_notMem _ _ _ hnd.1]
      simp [dUpd]
    · have hk : k ≠ p.1 := by
        intro hkp
        exact hnd.1 (hkp ▸ (List.mem_map.mpr ⟨(k, v), hm, rfl⟩))
      simp only [dSetMany]
      exact ih _ hnd.2 hm

theorem idxFrom_notMem (s : String) (l : List String) (acc : Int)
    (h : s ∉ l) : ProgressTracker.idxFrom s l acc = -1 := by
  induction l generalizing acc with
  | nil => rfl
  | cons x xs ih =>
    simp only [List.mem_cons] at h
    push_neg at h
    simp only [ProgressTracker.idxFrom]
    rw [if_neg (by exact fun hx => h.1 hx.symm)]
    exact ih _ h.2

theorem neg_one_le_idxFrom (s : String) (l : List String) (acc : Int)
    (hacc : 0 ≤ acc) : -1 ≤ ProgressTracker.idxFrom s l acc := by
  induction l generalizing acc with
  | nil => simp [ProgressTracker.idxFrom]
  | cons x xs ih =>
    simp only [ProgressTracker.idxFrom]
    split
    · omega
    · exact ih _ (by omega)

theorem neg_one_le_get_step_index_valO (v : Option TrackVal) :
    -1 ≤ ProgressTracker.get_step_index_valO v := by
  cases v with
  | none => simp [ProgressTracker.get_step_index_valO]
  | some w =>
    cases w with
    | pstr s =>
      simp only [ProgressTracker.get_step_index_valO,
        ProgressTracker.get_step_index_val, ProgressTracker.get_step_index]
      exact neg_one_le_idxFrom _ _ _ (by omega)
    | _ =>
      simp [ProgressTracker.get_step_index_valO,
        ProgressTracker.get_step_index_val]

/-! Claim C1. -/

/-- Claim C1, counterexample: the claim asserts that for every step name
not in the fixed sequence `is_step_completed` returns `false` regardless
of `last_step`; but with `last_step = "init"` the unknown step name
`"bogus"` is reported completed (its index resolves to `-1`, and
`-1 <= index("init")`). -/
theorem C1_counterexample :
    "bogus" ∉ ProgressTracker.STEPS ∧
      ProgressTracker.is_step_completed T1 "bogus" = true := by
  exact ⟨by decide, by decide⟩

/-- Claim C1 (amended): `is_step_completed(step)` returns true iff
`last_step` holds a truthy value `v` and
`get_step_index(step) <= get_step_index(v)`, where unknown names (and
non-string values) resolve to index `-1`; in particular a step name not
in the fixed sequence is reported **completed** whenever `last_step` is
truthy — not "not completed" as the claim stated. -/
theorem C1_amended_correct (t : ProgressTracker) (step : String) :
    (ProgressTracker.is_step_completed t step = true ↔
      ∃ v, ProgressTracker.get_last_step t = some v ∧ tvTruthy v = true ∧
        ProgressTracker.get_step_index step ≤
          ProgressTracker.get_step_index_val v) ∧
    (step ∉ ProgressTracker.STEPS →
      (ProgressTracker.is_step_completed t step = true ↔
        ∃ v, ProgressTracker.get_last_step t = some v ∧
          tvTruthy v = true)) := by
  have main : ProgressTracker.is_step_completed t step = true ↔
      ∃ v, ProgressTracker.get_last_step t = some v ∧ tvTruthy v = true ∧
        ProgressTracker.get_step_index step ≤
          ProgressTracker.get_step_index_val v := by
    unfold ProgressTracker.is_step_completed
    cases hls : ProgressTracker.get_last_step t with
    | none => simp [hls, tvTruthyO]
    | some v =>
      by_cases htv : tvTruthy v = true
      · simp [tvTruthyO, htv, ProgressTracker.get_step_index_valO]
      · rw [Bool.not_eq_true] at htv
        simp [tvTruthyO, htv]
  refine ⟨main, fun hns => ?_⟩
  rw [main]
  constructor
  · rintro ⟨v, hv, htv, _⟩
    exact ⟨v, hv, htv⟩
  · rintro ⟨v, hv, htv⟩
    refine ⟨v, hv, htv, ?_⟩
    have h1 : ProgressTracker.get_step_index step = -1 :=
      idxFrom_notMem step ProgressTracker.STEPS 0 hns
    have h2 : -1 ≤ ProgressTracker.get_step_index_val v := by
      simpa [ProgressTracker.get_step_index_valO] using
        neg_one_le_get_step_index_valO (some v)
    rw [ProgressTracker.get_step_index] at h1 ⊢
    omega

/-- Claim C1, witness: the amended characterization applied to the
concrete tracker `T1` (last step `init`) and the unknown step name
`bogus`. -/
theorem C1_witness : ProgressTracker.is_step_completed T1 "bogus" = true := by
  exact ((C1_amended_correct T1 "bogus").2 (by decide)).mpr
    ⟨.pstr "init", rfl, rfl⟩

/-! Claim C2. -/

/-- Claim C2, counterexample: with `last_step = "password_configured"`,
`complete_step("init")` is neither rejected nor a no-op — it overwrites
`last_step` with `"init"`, decreasing the stored step index. -/
theorem C2_counterexample :
    ProgressTracker.get_last_step T2 = some (.pstr "password_configured") ∧
    ProgressTracker.get_last_step
        (ProgressTracker.complete_step T2 "2026-10-12" "init" []) =
      some (.pstr "init") ∧
    ProgressTracker.get_step_index "init" <
      ProgressTracker.get_step_index "password_configured" := by
  exact ⟨rfl, rfl, by decide⟩

/-- Claim C2 (amended): `complete_step(s_new)` unconditionally sets
`last_step = s_new` (when the extra keyword arguments do not themselves
carry a `last_step` key); in particular when `index(s_new) <
index(last_step)` the stored step index **decreases** — the call is
neither rejected nor a no-op, and monotonicity is maintained only by
the call order of the orchestrator. -/
theorem C2_amended_correct (t : ProgressTracker) (now s_prev s_new : String)
    (kv : List (String × TrackVal))
    (hprev : ProgressTracker.get_last_step t = some (.pstr s_prev))
    (hlt : ProgressTracker.get_step_index s_new <
      ProgressTracker.get_step_index s_prev)
    (hkv : "last_step" ∉ kv.map Prod.fst) :
    ProgressTracker.get_last_step
        (ProgressTracker.complete_step t now s_new kv) =
      some (.pstr s_new) ∧
    ProgressTracker.get_step_index_valO
        (ProgressTracker.get_last_step
          (ProgressTracker.complete_step t now s_new kv)) <
      ProgressTracker.get_step_index_valO
        (ProgressTracker.get_last_step t) := by
  have h1 : ProgressTracker.get_last_step
      (ProgressTracker.complete_step t now s_new kv) =
      some (.pstr s_new) := by
    show dSetMany (dUpd (dUpd t.data "last_step" (.pstr s_new))
        "last_updated" (.pstr now)) kv "last_step" = some (.pstr s_new)
    rw [dSetMany_notMem _ _ _ hkv]
    simp only [dUpd]
    rw [if_neg (by decide : ¬("last_step" : String) = "last_updated")]
    simp
  refine ⟨h1, ?_⟩
  rw [h1, hprev]
  simpa [ProgressTracker.get_step_index_valO,
    ProgressTracker.get_step_index_val] using hlt

/-- Claim C2, witness: the amended statement applied to the concrete
tracker `T2` with the earlier step `init`. -/
theorem C2_witness :
    ProgressTracker.get_last_step
        (ProgressTracker.complete_step T2 "ts" "init" []) =
      some (.pstr "init") :=
  (C2_amended_correct T2 "ts" "password_configured" "init" [] rfl
    (by decide) (by simp)).1

/-! Claim C9. -/

/-- Claim C9, counterexample: the claim quantifies over every keyword
argument set, but `set(last_step=...)` merges into the same dict that
holds `last_step` and overwrites it. -/
theorem C9_counterexample :
    ProgressTracker.get_last_step T2 = some (.pstr "password_configured") ∧
    ProgressTracker.get_last_step
        (ProgressTracker.set T2 "ts" [("last_step", .pstr "zzz")]) =
      some (.pstr "zzz") :=
  ⟨rfl, rfl⟩

/-- Claim C9 (amended): provided the key `last_step` is not among the
given keyword arguments, `set(**kv)` merges the given keys into the data
dict and updates `last_updated`, leaving `last_step` exactly as it was;
a keyword argument named `last_step` would instead overwrite it like any
other key. -/
theorem C9_amended_correct (t : ProgressTracker) (now : String)
    (kv : List (String × TrackVal))
    (hkv : "last_step" ∉ kv.map Prod.fst)
    (hnd : (kv.map Prod.fst).Nodup) :
    ProgressTracker.get_last_step (ProgressTracker.set t now kv) =
      ProgressTracker.get_last_step t ∧
    (ProgressTracker.set t now kv).data "last_updated" =
      some (.pstr now) ∧
    ∀ k v, (k, v) ∈ kv → k ≠ "last_updated" →
      (ProgressTracker.set t now kv).data k = some v := by
  refine ⟨?_, ?_, ?_⟩
  · show dUpd (dSetMany t.data kv) "last_updated" (.pstr now) "last_step" =
      ProgressTracker.get_last_step t
    simp only [dUpd]
    rw [if_neg (by decide : ¬("last_step" : String) = "last_updated")]
    exact dSetMany_notMem _ _ _ hkv
  · show dUpd (dSetMany t.data kv) "last_updated" (.pstr now)
        "last_updated" = some (.pstr now)
    simp [dUpd]
  · intro k v hm hk
    show dUpd (dSetMany t.data kv) "last_updated" (.pstr now) k = some v
    simp only [dUpd]
    rw [if_neg hk]
    exact dSetMany_mem _ _ _ _ hnd hm

/-- Claim C9, witness: the amended statement applied to the concrete
tracker `T2` with one auxiliary key. -/
theorem C9_witness :
    ProgressTracker.get_last_step
        (ProgressTracker.set T2 "ts" [("bootstrap_method", .pstr "cloud-init")]) =
      ProgressTracker.get_last_step T2 ∧
    (ProgressTracker.set T2 "ts"
        [("bootstrap_method", .pstr "cloud-init")]).data "last_updated" =
      some (.pstr "ts") ∧
    ∀ k v, (k, v) ∈ [("bootstrap_method", TrackVal.pstr "cloud-init")] →
      k ≠ "last_updated" →
      (ProgressTracker.set T2 "ts"
          [("bootstrap_method", .pstr "cloud-init")]).data k = some v :=
  C9_amended_correct T2 "ts" [("bootstrap_method", .pstr "cloud-init")]
    (by simp) (by simp)

/-! Claims C3 and C4 (bootstrap fallback). -/

/-- The method labels the expect phase can produce. -/
theorem expect_phase_cases (env : BootstrapEnv) (d : BootstrapDetails) :
    (expect_phase env d).2.bootstrap_method = "ssh-expect-missing" ∨
    (expect_phase env d).2.bootstrap_method = "ssh-timeout" ∨
    (expect_phase env d).2.bootstrap_method = "ssh-tool-missing" ∨
    (expect_phase env d).2.bootstrap_method = "ssh-error" ∨
    (expect_phase env d).2.bootstrap_method = "ssh-expect-pwchange" ∨
    (expect_phase env d).2.bootstrap_method = "ssh-expect-no-pwchange" ∨
    (expect_phase env d).2.bootstrap_method = "ssh-expect-failed" := by
  unfold expect_phase
  cases hea : env.expectAvailable
  · simp
  · cases env.expectRun with
    | completed rc out err =>
      by_cases h : (rc == 0 || pyContains out setup_complete_sentinel) = true
      · by_cases hs :
          pyContains out "Detected forced password-change prompt" = true
        · simp [h, hs]
        · simp [h, hs]
      · simp [h]
    | timedOut => simp
    | toolNotFound => simp
    | otherError => simp

/-- When the expect tool is missing, or its run completes with a return
code and output (no exception), the label of the expect phase is in the
`ssh-expect-` family. -/
theorem expect_phase_starts (env : BootstrapEnv) (d : BootstrapDetails)
    (h : env.expectAvailable = false ∨
      ∃ rc out err, env.expectRun = .completed rc out err) :
    strStarts "ssh-expect-" (expect_phase env d).2.bootstrap_method = true := by
  unfold expect_phase
  rcases h with h | ⟨rc, out, err, h⟩
  · simp [h]
    decide
  · cases hea : env.expectAvailable
    · simp
      decide
    · rw [h]
      by_cases hc : (rc == 0 || pyContains out setup_complete_sentinel) = true
      · by_cases hs :
          pyContains out "Detected forced password-change prompt" = true
        · simp [hc, hs]
          decide
        · simp [hc, hs]
          decide
      · simp [hc]
        decide

/-- When the sshpass attempt completes without the sentinel but with a
forced-password-change signature in its combined output, the strategy
moves on to the expect phase with the prompt recorded. -/
theorem configure_falls_through (env : BootstrapEnv) (rc : Int)
    (out err : String)
    (hav : env.sshpassAvailable = true)
    (hrun : env.sshpassRun = .completed rc out err)
    (hsout : pyContains out setup_complete_sentinel = false)
    (hdet : pwPromptDetected (out ++ "\n" ++ err) = true) :
    configure_node_passwords env =
      expect_phase env ⟨some "sshpass", some true, "ssh-unknown"⟩ := by
  unfold configure_node_passwords
  rw [hav, hrun]
  simp [hsout, hdet]

/-- Claim C3, counterexample: the sshpass output carries the
forced-password-change signature `new password` and lacks the sentinel,
yet when the expect subprocess then raises a timeout the returned method
label is `ssh-timeout`, which does not start with `ssh-expect-`. -/
theorem C3_counterexample :
    bootEnvTimeout.sshpassRun = .completed 1 "" "New password: " ∧
    pyContains ("" ++ "\n" ++ "New password: ") setup_complete_sentinel =
      false ∧
    pyContains (pyLower ("" ++ "\n" ++ "New password: ")) "new password" =
      true ∧
    (configure_node_passwords bootEnvTimeout).2.bootstrap_method =
      "ssh-timeout" ∧
    strStarts "ssh-expect-" "ssh-timeout" = false := by
  exact ⟨rfl, by decide, by decide, rfl, by decide⟩

/-- Claim C3 (amended): for every sshpass attempt that completes with
output lacking the sentinel but containing one of the four
forced-password-change indicator substrings (case-insensitive), the
strategy never returns the non-interactive failure label
`ssh-sshpass-failed`; and whenever the interactive (expect) attempt does
not itself raise an exception — the tool is missing, or its run
completes with a return code and output — the method label starts with
`ssh-expect-`.  (An exception in the expect subprocess yields
`ssh-timeout`, `ssh-tool-missing` or `ssh-error` instead.) -/
theorem C3_amended_correct (env : BootstrapEnv) (rc : Int) (out err : String)
    (hav : env.sshpassAvailable = true)
    (hrun : env.sshpassRun = .completed rc out err)
    (hsent : pyContains (out ++ "\n" ++ err) setup_complete_sentinel = false)
    (hind : pyContains (pyLower (out ++ "\n" ++ err)) "current password" = true ∨
      pyContains (pyLower (out ++ "\n" ++ err)) "new password" = true ∨
      pyContains (pyLower (out ++ "\n" ++ err)) "password expired" = true ∨
      pyContains (pyLower (out ++ "\n" ++ err)) "must change" = true) :
    (configure_node_passwords env).2.bootstrap_method ≠
      "ssh-sshpass-failed" ∧
    ((env.expectAvailable = false ∨
        ∃ rc2 out2 err2, env.expectRun = .completed rc2 out2 err2) →
      strStarts "ssh-expect-"
        (configure_node_passwords env).2.bootstrap_method = true) := by
  have hsout : pyContains out setup_complete_sentinel = false := by
    by_cases h : pyContains out setup_complete_sentinel = true
    · have := pyContains_append (out ++ "\n") err setup_complete_sentinel
        (pyContains_append out "\n" setup_complete_sentinel h)
      rw [hsent] at this
      exact absurd this (by simp)
    · simpa using h
  have hdet : pwPromptDetected (out ++ "\n" ++ err) = true := by
    unfold pwPromptDetected forced_pw_change_indicators
    simp only [List.any_cons, List.any_nil, Bool.or_eq_true]
    rcases hind with h | h | h | h
    · exact Or.inl h
    · exact Or.inr (Or.inl h)
    · exact Or.inr (Or.inr (Or.inl h))
    · exact Or.inr (Or.inr (Or.inr (Or.inl h)))
  have hconf := configure_falls_through env rc out err hav hrun hsout hdet
  rw [hconf]
  constructor
  · rcases expect_phase_cases env ⟨some "sshpass", some true, "ssh-unknown"⟩
      with h | h | h | h | h | h | h <;> rw [h] <;> decide
  · intro h2
    exact expect_phase_starts env _ h2

/-- Claim C3, witness: the amended statement at a concrete environment
in which sshpass reports `New password:` on stderr and the expect run
completes with the sentinel. -/
theorem C3_witness :
    (configure_node_passwords
        ⟨true, .completed 1 "" "New password: ", true,
          .completed 0 "SETUP_COMPLETE" ""⟩).2.bootstrap_method ≠
      "ssh-sshpass-failed" := by
  exact (C3_amended_correct
    ⟨true, .completed 1 "" "New password: ", true,
      .completed 0 "SETUP_COMPLETE" ""⟩ 1 "" "New password: "
    rfl rfl (by decide) (Or.inr (Or.inl (by decide)))).1

/-- Claim C4: when the sshpass attempt completes with output lacking the
sentinel and the combined stdout/stderr contains none of the
forced-password-change indicators, the strategy fails outright with
`(False, "ssh-sshpass-failed")`: the result does not depend on the
expect environment at all (the statement quantifies over it), and
`bootstrap_tool` stays `"sshpass"`, so the interactive fallback was
never attempted. -/
theorem C4_no_fallback (env : BootstrapEnv) (rc : Int) (out err : String)
    (hav : env.sshpassAvailable = true)
    (hrun : env.sshpassRun = .completed rc out err)
    (hsout : pyContains out setup_complete_sentinel = false)
    (hind : pwPromptDetected (out ++ "\n" ++ err) = false) :
    configure_node_passwords env =
      (false, ⟨some "sshpass", none, "ssh-sshpass-failed"⟩) := by
  unfold configure_node_passwords
  rw [hav, hrun]
  simp [hsout, hind]

/-- Claim C4, witness: a concrete sshpass failure with no prompt
signature; the expect tool is installed and would even succeed, yet the
result is the outright `ssh-sshpass-failed` failure. -/
theorem C4_witness :
    configure_node_passwords bootEnvNoPrompt =
      (false, ⟨some "sshpass", none, "ssh-sshpass-failed"⟩) ∧
    bootEnvNoPrompt.expectAvailable = true ∧
    bootEnvNoPrompt.expectRun = .completed 0 "SETUP_COMPLETE" "" := by
  exact ⟨C4_no_fallback bootEnvNoPrompt 1 "oops" "connection lost" rfl rfl
    (by decide) (by decide), rfl, rfl⟩

/-! Executor helper lemmas. -/

theorem run_visited_lt (env : ExecEnv) (dir m : String) (xs : List Action)
    (i : Nat) (s : Bool) (p : Option ProgressTracker) (j : Nat) :
    j ∈ (run_actions_from env dir m xs i s p).visited → j < i + xs.length := by
  induction xs generalizing i s p with
  | nil => simp [run_actions_from]
  | cons a rest ih =>
    intro hj
    simp only [run_actions_from] at hj
    cases h : action_step env dir m i a s with
    | brk s2 =>
      rw [h] at hj
      simp at hj
      simp [hj]
    | next s2 =>
      rw [h] at hj
      simp only [List.mem_cons] at hj
      rcases hj with rfl | hj
      · simp
      · have := ih (i + 1) s2 _ hj
        simp only [List.length_cons]
        omega

theorem run_progress_some (env : ExecEnv) (dir m : String)
    (xs : List Action) (i : Nat) (s : Bool) (t : ProgressTracker) :
    ∃ t2, (run_actions_from env dir m xs i s (some t)).progress = some t2 := by
  induction xs generalizing i s t with
  | nil => exact ⟨t, rfl⟩
  | cons a rest ih =>
    simp only [run_actions_from]
    cases h : action_step env dir m i a s with
    | brk s2 => exact ⟨_, rfl⟩
    | next s2 => exact ih (i + 1) s2 _

theorem action_step_false (env : ExecEnv) (dir m : String) (i : Nat)
    (a : Action) :
    action_step env dir m i a false = .brk false ∨
    action_step env dir m i a false = .next false := by
  unfold action_step
  simp only [Bool.and_false]
  repeat' split
  all_goals simp

theorem run_success_false (env : ExecEnv) (dir m : String) (xs : List Action)
    (i : Nat) (p : Option ProgressTracker) :
    (run_actions_from env dir m xs i false p).success = false := by
  induction xs generalizing i p with
  | nil => rfl
  | cons a rest ih =>
    simp only [run_actions_from]
    rcases action_step_false env dir m i a with h | h
    · rw [h]
    · rw [h]
      exact ih (i + 1) _

theorem run_visited_cons (env : ExecEnv) (dir m : String) (a : Action)
    (rest : List Action) (i : Nat) (s : Bool) (p : Option ProgressTracker) :
    ∃ tl, (run_actions_from env dir m (a :: rest) i s p).visited = i :: tl := by
  simp only [run_actions_from]
  cases action_step env dir m i a s with
  | brk s2 => exact ⟨[], rfl⟩
  | next s2 => exact ⟨_, rfl⟩

theorem run_append_no_brk (env : ExecEnv) (dir m : String)
    (xs ys : List Action) (i : Nat) (s : Bool) (p : Option ProgressTracker)
    (h : (run_actions_from env dir m xs i s p).broke = false) :
    run_actions_from env dir m (xs ++ ys) i s p =
      mergeRes (run_actions_from env dir m xs i s p)
        (run_actions_from env dir m ys (i + xs.length)
          (run_actions_from env dir m xs i s p).success
          (run_actions_from env dir m xs i s p).progress) := by
  induction xs generalizing i s p with
  | nil =>
    simp only [List.nil_append, run_actions_from, List.length_nil,
      Nat.add_zero, mergeRes, List.nil_append]
  | cons a rest ih =>
    simp only [List.cons_append, run_actions_from] at h ⊢
    cases hs : action_step env dir m i a s with
    | brk s2 =>
      rw [hs] at h
      dsimp only at h
      exact absurd h (by simp)
    | next s2 =>
      rw [hs] at h
      dsimp only at h ⊢
      simp only [List.append_eq]
      rw [ih (i + 1) s2 _ h]
      simp only [List.length_cons]
      have harith : i + (rest.length + 1) = i + 1 + rest.length := by omega
      rw [harith]
      simp only [mergeRes, List.cons_append]

theorem action_step_fatal (env : ExecEnv) (dir m : String) (i : Nat)
    (a : Action) (hf : FatalActionAt env dir m i a) (s : Bool) :
    action_step env dir m i a s = .brk false := by
  rcases hf with ⟨hty, htr, hff⟩ | ⟨hty, hrb⟩
  · unfold action_step
    rw [hty]
    rcases hff with hfe | hco
    · simp [htr, hfe]
    · by_cases hfe : env.fileExists
        (pathJoin dir (pyStr (resolve_versioned_value a.script m))) = true
      · simp [htr, hfe, hco]
      · rw [Bool.not_eq_true] at hfe
        simp [htr, hfe]
  · unfold action_step
    rw [hty]
    simp [hrb]

theorem set_pair_lookup (t : ProgressTracker) (now : String) (n : Int)
    (a : Action) :
    (ProgressTracker.set t now
        [("post_install_action_index", .pint n),
         ("post_install_action", .pact a)]).data
      "post_install_action_index" = some (.pint n) := rfl

theorem skipTracker_lookup (env : ExecEnv) (act : Action) (i : Nat)
    (t : ProgressTracker) :
    (skipTracker env act i t).data "post_install_action_index" =
      some (.pint (i + 1)) := rfl

/-! Claim C5. -/

/-- Claim C5: for every action list `pre ++ act :: rest` whose prefix
runs without breaking, if the action at index `i = pre.length` fails
fatally (cmsh script-exec with missing file or failed run, or reboot
reconnect timeout), the executor breaks out of the loop with overall
success `false`, the persisted `post_install_action_index` still equals
`i` (not `i + 1`), and no index beyond `i` is ever entered — a rerun
resumes at the failing action. -/
theorem C5_fatal_stops (env : ExecEnv) (dir bcm_major : String)
    (pre rest : List Action) (act : Action) (t : ProgressTracker)
    (hpre : (run_actions_from env dir bcm_major pre 0 true (some t)).broke =
      false)
    (hfatal : FatalActionAt env dir bcm_major pre.length act) :
    (run_actions_from env dir bcm_major (pre ++ act :: rest) 0 true
        (some t)).success = false ∧
    (run_actions_from env dir bcm_major (pre ++ act :: rest) 0 true
        (some t)).broke = true ∧
    (∃ t2, (run_actions_from env dir bcm_major (pre ++ act :: rest) 0 true
        (some t)).progress = some t2 ∧
      t2.data "post_install_action_index" = some (.pint pre.length)) ∧
    pre.length ∈ (run_actions_from env dir bcm_major (pre ++ act :: rest) 0
        true (some t)).visited ∧
    ∀ j ∈ (run_actions_from env dir bcm_major (pre ++ act :: rest) 0 true
        (some t)).visited, j ≤ pre.length := by
  rw [run_append_no_brk env dir bcm_major pre (act :: rest) 0 true (some t)
    hpre]
  obtain ⟨t1, ht1⟩ := run_progress_some env dir bcm_major pre 0 true t
  have hstep : action_step env dir bcm_major (0 + pre.length) act
      (run_actions_from env dir bcm_major pre 0 true (some t)).success =
      .brk false := by
    apply action_step_fatal
    simpa using hfatal
  have hr2 : run_actions_from env dir bcm_major (act :: rest)
      (0 + pre.length)
      (run_actions_from env dir bcm_major pre 0 true (some t)).success
      (run_actions_from env dir bcm_major pre 0 true (some t)).progress =
      ⟨false,
       progSet (run_actions_from env dir bcm_major pre 0 true
           (some t)).progress env.now
         [("post_install_action_index", .pint ((0 + pre.length : Nat) : Int)),
          ("post_install_action", .pact act)],
       [0 + pre.length], true⟩ := by
    simp only [run_actions_from]
    rw [hstep]
  rw [hr2]
  dsimp only [mergeRes]
  rw [ht1]
  refine ⟨rfl, rfl, ⟨_, rfl, ?_⟩, ?_, ?_⟩
  · have := set_pair_lookup t1 env.now ((0 + pre.length : Nat) : Int) act
    simpa using this
  · simp
  · intro j hj
    simp only [List.mem_append, List.mem_singleton] at hj
    rcases hj with hj | hj
    · have := run_visited_lt env dir bcm_major pre 0 true (some t) j hj
      omega
    · omega

/-- Claim C5, witness: the reboot action at index 0 times out in
`envRebootFails`; the run stops with success `false` and the persisted
index still `0`. -/
theorem C5_witness :
    (run_actions_from envRebootFails "top" "10"
        ([] ++ rebootAction "rb" :: [rebootAction "r2"]) 0 true
        (some T0)).success = false ∧
    (run_actions_from envRebootFails "top" "10"
        ([] ++ rebootAction "rb" :: [rebootAction "r2"]) 0 true
        (some T0)).broke = true ∧
    (∃ t2, (run_actions_from envRebootFails "top" "10"
        ([] ++ rebootAction "rb" :: [rebootAction "r2"]) 0 true
        (some T0)).progress = some t2 ∧
      t2.data "post_install_action_index" =
        some (.pint (List.length ([] : List Action)))) ∧
    List.length ([] : List Action) ∈
      (run_actions_from envRebootFails "top" "10"
        ([] ++ rebootAction "rb" :: [rebootAction "r2"]) 0 true
        (some T0)).visited ∧
    ∀ j ∈ (run_actions_from envRebootFails "top" "10"
        ([] ++ rebootAction "rb" :: [rebootAction "r2"]) 0 true
        (some T0)).visited, j ≤ List.length ([] : List Action) :=
  C5_fatal_stops envRebootFails "top" "10" [] [rebootAction "r2"]
    (rebootAction "rb") T0 rfl (Or.inr ⟨by decide, rfl⟩)

/-! Claim C6. -/

/-- Claim C6, counterexample: the upload at index 0 fails (non-fatally,
per the claim), the cmsh action at index 1 is executed and its helper
succeeds, yet because the success flag was already false the loop then
breaks: the reboot at index 2 — which would have succeeded — is never
executed, refuting "every subsequent action in the list is still
executed". -/
theorem C6_counterexample :
    (run_actions_from envUploadFails "top" "10"
        [uploadAction "u" "p.sh", cmshAction "c" "conf.cm",
         rebootAction "r"] 0 true (some T0)).visited = [0, 1] ∧
    (run_actions_from envUploadFails "top" "10"
        [uploadAction "u" "p.sh", cmshAction "c" "conf.cm",
         rebootAction "r"] 0 true (some T0)).success = false ∧
    (run_actions_from envUploadFails "top" "10"
        [uploadAction "u" "p.sh", cmshAction "c" "conf.cm",
         rebootAction "r"] 0 true (some T0)).broke = true ∧
    envUploadFails.cmshOk 1 (pathJoin "top" "conf.cm") = true ∧
    envUploadFails.rebootOk 2 = true := by
  exact ⟨rfl, rfl, rfl, rfl, rfl⟩

/-- Claim C6 (amended): a failed `upload_ztp` action never breaks the
loop itself — the immediately following action is always entered — but
it does poison the overall success flag: the run continues with the
flag false (so the final result is a failure), and the loop stops at the
first subsequent `cmsh` or `wlm_setup` action even if that action
succeeds, because those branches break whenever the accumulated flag is
false. -/
theorem C6_amended_correct (env : ExecEnv) (dir bcm_major : String)
    (act : Action) (rest : List Action) (i : Nat) (s : Bool)
    (p : Option ProgressTracker)
    (hty : pyActType act = "upload_ztp")
    (hpath : pvTruthy (resolve_versioned_value act.path bcm_major) = true)
    (hex : env.fileExists
        (pathJoin dir (pyStr (resolve_versioned_value act.path bcm_major))) =
      true)
    (hup : env.uploadOk i
        (pathJoin dir (pyStr (resolve_versioned_value act.path bcm_major))) =
      false) :
    (run_actions_from env dir bcm_major (act :: rest) i s p).success =
      false ∧
    (∃ tl, (run_actions_from env dir bcm_major (act :: rest) i s p).visited =
      i :: tl) ∧
    ∀ b rest2, rest = b :: rest2 →
      (i + 1) ∈
        (run_actions_from env dir bcm_major (act :: rest) i s p).visited := by
  have hne : ("upload_ztp" : String) ≠ "cmsh" := by decide
  have hstep : action_step env dir bcm_major i act s = .next false := by
    unfold action_step
    rw [hty]
    simp [hne, hpath, hex, hup]
  have hrun : run_actions_from env dir bcm_major (act :: rest) i s p =
      ⟨(run_actions_from env dir bcm_major rest (i + 1) false
          (progSet (progSet p env.now
            [("post_install_action_index", .pint i),
             ("post_install_action", .pact act)]) env.now
            [("post_install_action_index", .pint (i + 1))])).success,
       (run_actions_from env dir bcm_major rest (i + 1) false
          (progSet (progSet p env.now
            [("post_install_action_index", .pint i),
             ("post_install_action", .pact act)]) env.now
            [("post_install_action_index", .pint (i + 1))])).progress,
       i :: (run_actions_from env dir bcm_major rest (i + 1) false
          (progSet (progSet p env.now
            [("post_install_action_index", .pint i),
             ("post_install_action", .pact act)]) env.now
            [("post_install_action_index", .pint (i + 1))])).visited,
       (run_actions_from env dir bcm_major rest (i + 1) false
          (progSet (progSet p env.now
            [("post_install_action_index", .pint i),
             ("post_install_action", .pact act)]) env.now
            [("post_install_action_index", .pint (i + 1))])).broke⟩ := by
    simp only [run_actions_from]
    rw [hstep]
  refine ⟨?_, ?_, ?_⟩
  · rw [hrun]
    exact run_success_false env dir bcm_major rest (i + 1) _
  · rw [hrun]
    exact ⟨_, rfl⟩
  · intro b rest2 hr
    subst hr
    rw [hrun]
    obtain ⟨tl, htl⟩ := run_visited_cons env dir bcm_major b rest2 (i + 1)
      false (progSet (progSet p env.now
        [("post_install_action_index", .pint i),
         ("post_install_action", .pact act)]) env.now
        [("post_install_action_index", .pint (i + 1))])
    simp [htl]

/-- Claim C6, witness: the amended statement at the concrete failing
upload followed by a reboot action. -/
theorem C6_witness :
    (run_actions_from envUploadFails "top" "10"
        (uploadAction "u" "p.sh" :: [rebootAction "r"]) 0 true
        (some T0)).success = false ∧
    (∃ tl, (run_actions_from envUploadFails "top" "10"
        (uploadAction "u" "p.sh" :: [rebootAction "r"]) 0 true
        (some T0)).visited = 0 :: tl) ∧
    ∀ b rest2, [rebootAction "r"] = b :: rest2 →
      (0 + 1) ∈ (run_actions_from envUploadFails "top" "10"
        (uploadAction "u" "p.sh" :: [rebootAction "r"]) 0 true
        (some T0)).visited :=
  C6_amended_correct envUploadFails "top" "10" (uploadAction "u" "p.sh")
    [rebootAction "r"] 0 true (some T0) (by decide) (by decide) rfl rfl

/-! Claim C10. -/

/-- Claim C10: an action whose type string is not one of the recognized
kinds is skipped with a warning: the run on `act :: rest` equals the run
on `rest` continued with the same success flag (so the unknown action
never sets it to false), after the checkpoint index has been advanced
past it to `i + 1` (the tracker handed to the continuation stores
`post_install_action_index = i + 1`). -/
theorem C10_unknown_skips (env : ExecEnv) (dir bcm_major : String)
    (act : Action) (rest : List Action) (i : Nat) (s : Bool)
    (t : ProgressTracker)
    (h1 : pyActType act ≠ "cmsh") (h2 : pyActType act ≠ "upload_ztp")
    (h3 : pyActType act ≠ "reboot") (h4 : pyActType act ≠ "wlm_setup") :
    run_actions_from env dir bcm_major (act :: rest) i s (some t) =
      ⟨(run_actions_from env dir bcm_major rest (i + 1) s
          (some (skipTracker env act i t))).success,
       (run_actions_from env dir bcm_major rest (i + 1) s
          (some (skipTracker env act i t))).progress,
       i :: (run_actions_from env dir bcm_major rest (i + 1) s
          (some (skipTracker env act i t))).visited,
       (run_actions_from env dir bcm_major rest (i + 1) s
          (some (skipTracker env act i t))).broke⟩ ∧
    (skipTracker env act i t).data "post_install_action_index" =
      some (.pint (i + 1)) := by
  have hstep : action_step env dir bcm_major i act s = .next s := by
    unfold action_step
    simp [h1, h2, h3, h4]
  constructor
  · simp only [run_actions_from]
    rw [hstep]
    rfl
  · exact skipTracker_lookup env act i t

/-- Claim C10, witness: a concrete unknown action type `bogus` between
two reboot actions is skipped, with the index advanced to 1 and the
overall flag untouched. -/
theorem C10_witness :
    run_actions_from envAllOk "top" "10"
        (unknownAction "bogus" :: [rebootAction "r"]) 0 true (some T0) =
      ⟨(run_actions_from envAllOk "top" "10" [rebootAction "r"] 1 true
          (some (skipTracker envAllOk (unknownAction "bogus") 0 T0))).success,
       (run_actions_from envAllOk "top" "10" [rebootAction "r"] 1 true
          (some (skipTracker envAllOk (unknownAction "bogus") 0 T0))).progress,
       0 :: (run_actions_from envAllOk "top" "10" [rebootAction "r"] 1 true
          (some (skipTracker envAllOk (unknownAction "bogus") 0 T0))).visited,
       (run_actions_from envAllOk "top" "10" [rebootAction "r"] 1 true
          (some (skipTracker envAllOk (unknownAction "bogus") 0 T0))).broke⟩ ∧
    (skipTracker envAllOk (unknownAction "bogus") 0 T0).data
        "post_install_action_index" = some (.pint 1) := by
  exact C10_unknown_skips envAllOk "top" "10" (unknownAction "bogus")
    [rebootAction "r"] 0 true T0 (by decide) (by decide) (by decide)
    (by decide)

/-! Claim C7. -/

/-- Claim C7, counterexample: a features mapping that provides an
explicit `actions:` array but no enabled feature entries — the executor
returns success without resolving or running the explicit list (the
early "all features disabled" return fires before the explicit array is
read), refuting "the explicit list is used directly, whether or not any
individual feature entry is enabled". -/
theorem C7_counterexample :
    featGet F7.entries "actions" = some (.flist [rebootAction "r1"]) ∧
    (run_post_install_features envAllOk F7 "top" "11.30.0"
        (some T0)).2.2.1 = none ∧
    (run_post_install_features envAllOk F7 "top" "11.30.0"
        (some T0)).2.2.2 = [] ∧
    (run_post_install_features envAllOk F7 "top" "11.30.0"
        (some T0)).1 = true := by
  exact ⟨rfl, rfl, rfl, rfl⟩

/-- Claim C7 (amended): when the features mapping provides an explicit
`actions:` array **and** at least one feature entry is a mapping with a
truthy `enabled` flag, the resolved action list is exactly that array
(used directly, without per-feature building); with no enabled feature
entry the executor instead returns success early and never reads the
explicit array. -/
theorem C7_amended_correct (env : ExecEnv) (f : FeaturesCfg)
    (dir ver : String) (p : Option ProgressTracker) (l : List Action)
    (hl : featGet f.entries "actions" = some (.flist l))
    (hen : enabled_features f ≠ []) :
    (run_post_install_features env f dir ver p).2.2.1 = some l := by
  have hne : f.entries.isEmpty = false := by
    cases hf : f.entries with
    | nil =>
      rw [hf] at hl
      simp [featGet] at hl
    | cons a as => simp [hf]
  have hen2 : (enabled_features f).isEmpty = false := by
    cases hf : enabled_features f with
    | nil => exact absurd hf hen
    | cons a as => simp
  unfold run_post_install_features
  simp only [hne, hen2, hl, Bool.false_eq_true, if_false]
  cases l with
  | nil => simp
  | cons a as => simp

/-- Claim C7, witness: the amended statement on the concrete mapping
`F7e` (explicit array plus one enabled feature). -/
theorem C7_witness :
    (run_post_install_features envAllOk F7e "top" "11.30.0"
        (some T0)).2.2.1 = some [rebootAction "r1"] :=
  C7_amended_correct envAllOk F7e "top" "11.30.0" (some T0)
    [rebootAction "r1"] rfl
    (by rw [show enabled_features F7e =
        [("x", ⟨true, PyV.vnone, PyV.vnone, false⟩)] from rfl]
        exact List.cons_ne_nil _ _)

/-! Claim C8. -/

/-- Claim C8: version resolution — a mapping resolves through the
string key first, then the parsed integer key; a non-mapping value
passes through unchanged regardless of the major version; and the
concrete mapping `{"10": "a.xml", "11": "b.xml"}` resolves to `a.xml`
under `"10"` and `b.xml` under `"11"`. -/
theorem C8_version_resolution (es : List (PyKey × PyV)) (m : String)
    (v : PyV) :
    (∀ r, alookup es (.ks m) = some r →
      resolve_versioned_value (.vdict es) m = r) ∧
    (∀ k r, alookup es (.ks m) = none → pyIntOfString m = some k →
      alookup es (.ki k) = some r →
      resolve_versioned_value (.vdict es) m = r) ∧
    ((∀ es2, v ≠ .vdict es2) → resolve_versioned_value v m = v) ∧
    resolve_versioned_value
        (.vdict [(.ks "10", .vstr "a.xml"), (.ks "11", .vstr "b.xml")])
        "10" = .vstr "a.xml" ∧
    resolve_versioned_value
        (.vdict [(.ks "10", .vstr "a.xml"), (.ks "11", .vstr "b.xml")])
        "11" = .vstr "b.xml" := by
  refine ⟨?_, ?_, ?_, rfl, rfl⟩
  · intro r hr
    unfold resolve_versioned_value
    dsimp only
    rw [hr]
  · intro k r h1 h2 h3
    unfold resolve_versioned_value
    dsimp only
    simp only [h1, h2, h3]
  · intro hnd
    cases v with
    | vdict es2 => exact absurd rfl (hnd es2)
    | vnone => rfl
    | vbool b => rfl
    | vint n => rfl
    | vstr s => rfl

/-- Claim C8, witness: integer-key fallback at the concrete input
`{10: "ten.xml"}` with major version string `"10"`, and the plain-string
pass-through. -/
theorem C8_witness :
    resolve_versioned_value (.vdict [(.ki 10, .vstr "ten.xml")]) "10" =
      .vstr "ten.xml" ∧
    resolve_versioned_value (.vstr "plain.xml") "11" = .vstr "plain.xml" :=
  ⟨(C8_version_resolution [(.ki 10, .vstr "ten.xml")] "10" .vnone).2.1
      10 (.vstr "ten.xml") rfl (by decide) rfl,
   (C8_version_resolution [] "11" (.vstr "plain.xml")).2.2.1
      (fun es2 h => PyV.noConfusion h)⟩

end BcmAir
